import Mathlib

/-!
Verification of the `newspaper-scraper` site adapters (`welt.py`, `zeit.py`,
`handelsblatt.py`) against their natural-language specification.

The Python methods are shallowly embedded as pure Lean functions.  Network and
DOM effects are passed in explicitly:

* `self._request` becomes a parameter `fetch : String → Option String`
  (`none` models a failed request returning `None`);
* `BeautifulSoup(html, "html.parser")` together with the particular
  `find` / `find_all` / `select` queries a method performs becomes a parameter
  `parse : String → <structure>` whose structure records exactly the query
  results the method reads;
* `pd.to_datetime(x, errors='coerce', utc=True)` and
  `pd.to_datetime(x, format=f, utc=True)` become oracle parameters returning
  `Option Int`: `some t` is a timezone-aware UTC instant (seconds since the
  epoch), `none` is `pd.NaT`.  With `utc=True` pandas never yields a
  timezone-naive value, which this representation makes structural;
* selenium calls become finite records of per-step outcomes; a Python
  exception escaping to the caller is modelled as an explicit error value;
* `log.warning` / `log.error` messages are returned alongside the result.
-/

/-- Python `s.startswith(p)`, modelled over the character lists of the two
strings so that list prefix lemmas apply. -/
def pyStartsWith (s p : String) : Bool := p.data.isPrefixOf s.data

/-- Python `p in s` (substring containment), used for `"dosearch" in a["href"]`:
true when `needle` occurs as a contiguous run inside the haystack. -/
def listHasInfix (needle : List Char) : List Char → Bool
  | [] => needle.isPrefixOf []
  | c :: rest => needle.isPrefixOf (c :: rest) || listHasInfix needle rest

/-- Python `p in s` on strings. -/
def pyIn (needle hay : String) : Bool := listHasInfix needle.data hay.data

/-- Python `list(set(xs))`: the elements of `xs` without duplicates.  CPython
returns them in an unspecified order; the embedding fixes the order to
first occurrences (`List.dedup`), which is adequate because the code under
verification only relies on set semantics (no duplicates, same members). -/
def pySet (xs : List String) : List String := xs.dedup

/-- The spec's notion of a normalized absolute URL: it carries an explicit
http or https scheme (and hence a host position). -/
def absoluteUrl (u : String) : Bool :=
  pyStartsWith u "http://" || pyStartsWith u "https://"

/-- Python exceptions that escape the embedded functions. -/
inductive PyError
  | typeError
  | nameError
  | valueError
deriving DecidableEq

/-- A `_soup_get_html` outcome: the returned pair `(html, flag)` plus the
warning messages logged while producing it.  `flag` is the anonymous boolean
second component of the Python `return` pair. -/
structure ClassifyResult where
  html : Option String
  flag : Bool
  warnings : List String
deriving DecidableEq

namespace DeWelt

/-- The element found by `soup.find("header", {"class": "r-header r-header--default"})`
on a Welt article page: all the classification code reads from it is whether
`find('a', {"class": "is-link c-article-header__premium"})` succeeds. -/
structure Header where
  premiumLink : Bool
deriving DecidableEq

/-- The queries `DeWelt._soup_get_html` performs on a parsed article page. -/
structure ArticleSoup where
  /-- result of `soup.find("header", {"class": "r-header r-header--default"})`;
  `none` models the header being absent, in which case the chained
  `.find('a', ...)` raises `AttributeError`. -/
  defaultHeader : Option Header
deriving DecidableEq

/-- Embedding of `DeWelt._soup_get_html` (welt.py lines 139-161).
`fetch` models `self._request`; `parse` models `BeautifulSoup` plus the two
chained `find` calls; Python's `if not html` is true for both `None` and the
empty string. -/
def _soup_get_html (fetch : String → Option String) (parse : String → ArticleSoup)
    (url : String) : ClassifyResult :=
  match fetch url with
  | none => ⟨none, false, []⟩
  | some html =>
    if html = "" then ⟨none, false, []⟩
    else
      match (parse html).defaultHeader with
      | none =>
        ⟨none, false, ["Could not identify if article is premium: " ++ url ++ "."]⟩
      | some hdr => ⟨some html, !hdr.premiumLink, []⟩

end DeWelt

namespace DeZeit

/-- The queries `DeZeit._soup_get_html` performs on a parsed article page. -/
structure ArticleSoup where
  /-- the `href` attributes of the page's anchors, read by
  `soup.find("a", href=f"{url}/komplettansicht")`. -/
  anchorHrefs : List String
  /-- whether `soup.find('aside', {'id': 'paywall'})` finds the paywall aside. -/
  hasPaywallAside : Bool
deriving DecidableEq

/-- Whether the page holds an anchor with exactly the given `href`. -/
def ArticleSoup.hasLink (s : ArticleSoup) (href : String) : Bool :=
  s.anchorHrefs.contains href

/-- Embedding of `DeZeit._soup_get_html` (zeit.py lines 72-112).  The Python
method recurses on `url + "/komplettansicht"` when the page links to that
full view, so the embedding takes a fuel argument; `none` models the call
still running after `fuel` nested activations (potential nontermination).
The method checks `html is None` only (an empty string proceeds).  The inner
`except AttributeError` handler (lines 107-109) is unreachable: `soup.find`
returns `None` rather than raising, and `not bool(None)` is well defined; the
outer `except TypeError` wrapper likewise has nothing to catch here.  Both
are therefore not branches of the embedding. -/
def _soup_get_html (fetch : String → Option String) (parse : String → ArticleSoup) :
    Nat → String → Option ClassifyResult
  | 0, _ => none
  | Nat.succ fuel, url =>
    match fetch url with
    | none => some ⟨none, false, ["Problem requesting: " ++ url]⟩
    | some html =>
      let soup := parse html
      if soup.hasLink (url ++ "/komplettansicht") then
        _soup_get_html fetch parse fuel (url ++ "/komplettansicht")
      else
        some ⟨some html, !soup.hasPaywallAside, []⟩

end DeZeit

/-- A concrete Welt page carrying the premium marker: the default header is
present and contains the `is-link c-article-header__premium` anchor. -/
def weltPremiumPage : String → DeWelt.ArticleSoup := fun _ => ⟨some ⟨true⟩⟩

/-- C1: the claim reads the boolean returned by classification as
`is_premium`, true exactly when the page carries the premium marker.  On a
fetched Welt page that does contain the marker, `_soup_get_html` returns the
boolean `false` (the code computes `not bool(premium_icon)`), so the claim
fails at this input. -/
theorem c1_premium_marker_flag_cex :
    DeWelt._soup_get_html (fun _ => some "page") weltPremiumPage "u"
      = ⟨some "page", false, []⟩ := rfl

/-- C1 (amended): the boolean returned by `_soup_get_html` is true exactly
when the premium/paywall marker is absent — it reports "not premium /
publicly fetchable", the negation of the spec's `is_premium`.  For Welt this
holds whenever the page is fetched, nonempty and its default header parses;
for Zeit whenever the page is fetched and carries no full-view link (the
branch that classifies). -/
theorem c1_classification_flag_inverted
    (fetch : String → Option String) (url html : String)
    (wparse : String → DeWelt.ArticleSoup) (hdr : DeWelt.Header)
    (zparse : String → DeZeit.ArticleSoup) (fuel : Nat)
    (hf : fetch url = some html) (hne : html ≠ "")
    (hh : (wparse html).defaultHeader = some hdr)
    (hz : (zparse html).hasLink (url ++ "/komplettansicht") = false) :
    DeWelt._soup_get_html fetch wparse url = ⟨some html, !hdr.premiumLink, []⟩
      ∧ DeZeit._soup_get_html fetch zparse (fuel + 1) url
          = some ⟨some html, !(zparse html).hasPaywallAside, []⟩ := by
  constructor
  · simp only [DeWelt._soup_get_html, hf, if_neg hne, hh]
  · simp only [DeZeit._soup_get_html, hf, hz, Bool.false_eq_true, if_false]

/-- Witness for `c1_classification_flag_inverted` at a concrete page whose
Welt header lacks the premium anchor and whose Zeit soup has no links. -/
theorem c1_classification_flag_inverted_witness :
    DeWelt._soup_get_html (fun _ => some "p") (fun _ => ⟨some ⟨false⟩⟩) "u"
        = ⟨some "p", !(false : Bool), []⟩
      ∧ DeZeit._soup_get_html (fun _ => some "p") (fun _ => ⟨[], true⟩) (0 + 1) "u"
        = some ⟨some "p", !(true : Bool), []⟩ :=
  c1_classification_flag_inverted (fun _ => some "p") "u" "p"
    (fun _ => ⟨some ⟨false⟩⟩) ⟨false⟩ (fun _ => ⟨[], true⟩) 0
    rfl (by decide) rfl rfl

/-- C3: when the premium-marker lookup raises `AttributeError` (for Welt: the
default header is absent, so the chained `find` is called on `None`), the
adapter returns the pair `(None, False)` and logs a warning naming the url. -/
theorem c3_attribute_error_branch
    (fetch : String → Option String) (parse : String → DeWelt.ArticleSoup)
    (url html : String)
    (hf : fetch url = some html) (hne : html ≠ "")
    (hh : (parse html).defaultHeader = none) :
    DeWelt._soup_get_html fetch parse url
      = ⟨none, false, ["Could not identify if article is premium: " ++ url ++ "."]⟩ := by
  simp only [DeWelt._soup_get_html, hf, if_neg hne, hh]

/-- Witness for `c3_attribute_error_branch` on a page with no default header. -/
theorem c3_attribute_error_branch_witness :
    DeWelt._soup_get_html (fun _ => some "p") (fun _ => ⟨none⟩) "u"
      = ⟨none, false, ["Could not identify if article is premium: " ++ "u" ++ "."]⟩ :=
  c3_attribute_error_branch (fun _ => some "p") (fun _ => ⟨none⟩) "u" "p"
    rfl (by decide) rfl

/-- A Python `datetime.date` as the indexers consume it: its epoch ordinal
(for the midnight-UTC publication timestamps) and the two `strftime`
renderings that occur in the index urls. -/
structure PyDate where
  /-- days since the Unix epoch -/
  ordinal : Int
  /-- `day.strftime("%d.%m.%Y")` -/
  fmtDots : String
  /-- `day.strftime("%d-%m-%Y")` -/
  fmtDashes : String
deriving DecidableEq

namespace DeWelt

/-- The `span.c-teaser__date` element of one teaser. -/
structure DateSpan where
  /-- the machine-readable `datetime` attribute when `time_tag.has_attr('datetime')` -/
  datetimeAttr : Option String
  /-- `time_tag.get_text(strip=True)` -/
  text : String
deriving DecidableEq

/-- One element of `soup.find_all("article", {"class": "c-teaser c-teaser--archive"})`. -/
structure Teaser where
  /-- result of `art.find('span', {'class': 'c-teaser__date'})` -/
  dateSpan : Option DateSpan
  /-- `art.get_text(" ", strip=True)`, the plain-text fallback -/
  text : String
deriving DecidableEq

/-- The queries `DeWelt._get_articles_by_date` performs on the archive page. -/
structure IndexSoup where
  /-- `soup.find_all("article", {"class": "c-teaser c-teaser--archive"})` -/
  articles : List Teaser
  /-- the `href`s of `soup.select('a.c-teaser__headline-link')` -/
  headlineHrefs : List String
deriving DecidableEq

/-- The four explicit `strftime` formats tried in order (welt.py line 117). -/
def dateFormats : List String :=
  ["%d.%m.%Y | %H:%M", "%d.%m.%Y %H:%M", "%B %d %Y | %I:%M %p", "%B %d %Y %I:%M %p"]

/-- `text.replace('Uhr', '').replace(',', '').strip()` (welt.py line 113). -/
def normalizeDateText (text : String) : String :=
  ((text.replace "Uhr" "").replace "," "").trim

/-- Date parsing from teaser text (welt.py lines 108-128): `NaT` for empty
text, else the first explicit format that parses, else pandas inference.
`tryFormat f t` models `pd.to_datetime(t, format=f, utc=True)` (`none` when it
raises); `coerceUtc t` models `pd.to_datetime(t, errors='coerce', utc=True)`
(`none` is `NaT`).  Both oracles return timezone-aware UTC instants. -/
def teaserTextDate (tryFormat : String → String → Option Int)
    (coerceUtc : String → Option Int) (text : String) : Option Int :=
  if text = "" then none
  else
    let t := normalizeDateText text
    match dateFormats.findSome? (fun f => tryFormat f t) with
    | some v => some v
    | none => coerceUtc t

/-- The publication date computed for one teaser (welt.py lines 92-128):
a machine-readable `datetime` attribute is preferred, then the span text,
then the article's plain text. -/
def teaserDate (tryFormat : String → String → Option Int)
    (coerceUtc : String → Option Int) (art : Teaser) : Option Int :=
  match art.dateSpan with
  | some tag =>
    match tag.datetimeAttr with
    | some d => coerceUtc d
    | none => teaserTextDate tryFormat coerceUtc tag.text
  | none => teaserTextDate tryFormat coerceUtc art.text

/-- `df.drop_duplicates(subset="url")` on the url/date rows: keeps the first
row for each url; `seen` accumulates the urls already kept. -/
def dropDupRows (seen : List String) : List (String × Option Int) → List (String × Option Int)
  | [] => []
  | r :: rest =>
    if r.1 ∈ seen then dropDupRows seen rest
    else r :: dropDupRows (r.1 :: seen) rest

/-- The archive url for the day (welt.py line 48). -/
def indexUrl (day : PyDate) : String :=
  "https://www.welt.de/schlagzeilen/nachrichten-vom-" ++ day.fmtDashes ++ ".html"

/-- Embedding of `DeWelt._get_articles_by_date` (welt.py lines 35-136).
The `if html is None` guard is commented out in the source (lines 53-54), so a
failed request reaches `BeautifulSoup(None, "html.parser")`, which raises
`TypeError`.  `pd.DataFrame({"url": urls, "pub_date": pub_dates})` (line 130)
raises `ValueError` when the two lists differ in length.  The final
`pd.to_datetime(df["pub_date"], errors="coerce")` (line 134) is the identity
here: the deduplicated column already holds only UTC timestamps and `NaT`. -/
def _get_articles_by_date (fetch : String → Option String) (parse : String → IndexSoup)
    (tryFormat : String → String → Option Int) (coerceUtc : String → Option Int)
    (day : PyDate) : Except PyError (List String × List (Option Int)) :=
  match fetch (indexUrl day) with
  | none => .error .typeError
  | some html =>
    let soup := parse html
    if soup.articles.isEmpty then .ok ([], [])
    else
      let urls := soup.headlineHrefs.map
        (fun h => if !pyStartsWith h "http" then "https://www.welt.de" ++ h else h)
      let dates := soup.articles.map (teaserDate tryFormat coerceUtc)
      if urls.length = dates.length then
        let rows := dropDupRows [] (urls.zip dates)
        .ok (rows.map Prod.fst, rows.map Prod.snd)
      else .error .valueError

end DeWelt

namespace DeZeit

/-- `f'{edition:02}'` -/
def pad2 (n : Nat) : String := if n < 10 then "0" ++ toString n else toString n

/-- The edition index url (zeit.py line 50). -/
def editionUrl (year edition : Nat) : String :=
  "https://www.zeit.de/" ++ toString year ++ "/" ++ pad2 edition ++ "/index"

/-- Embedding of `DeZeit._get_articles_by_editions` (zeit.py lines 37-70).
`parse` yields, per `<article>` element of the index page, the `href` of its
first anchor — `none` when the element holds no anchor, in which case the
comprehension `article.find('a')['href']` subscripts `None` and raises
`TypeError`.  The method returns a bare url list, with no publication dates,
on every branch. -/
def _get_articles_by_editions (fetch : String → Option String)
    (parse : String → List (Option String)) (year edition : Nat) :
    Except PyError (List String) :=
  match fetch (editionUrl year edition) with
  | none => .ok []
  | some html =>
    match (parse html).mapM id with
    | none => .error .typeError
    | some urls =>
      .ok (pySet (urls.filter (fun u => pyStartsWith u "https://www.zeit.de/")))

end DeZeit

namespace DeHandelsblatt

/-- One archive-search hit (an element of `soup.find_all("div", class_="hit")`):
the `href` of its first anchor carrying one (`hit.find("a", href=True)`),
when any. -/
structure Hit where
  href : Option String
deriving DecidableEq

/-- The queries `DeHandelsblatt._get_articles_by_date` performs on the
archive-search result page. -/
structure IndexSoup where
  hits : List Hit
  /-- `soup.find("div", class_="pagination")`, when present: the `href`s of its
  anchors (`find_all("a", href=True)`). -/
  pagination : Option (List String)
deriving DecidableEq

/-- The archive-search url for the day (handelsblatt.py line 48). -/
def searchUrl (day : PyDate) : String :=
  "https://archiv.handelsblatt.com/dosearch?explicitSearch=true&q=&x=0&y=0&dbShortcut=HBARCHIV_HANDELSBLATT_NAVIGATION&searchMask=7009&TI%2CUT%2CDZ%2CBT%2COT%2CSL=&KO%2CRU=&AU=&CO%2CC2%2CTA%2CKA%2CVA%2CZ1=&MM%2COW%2CUF%2CMF%2CAO%2CTP%2CVM%2CNN%2CNJ%2CKV%2CZ2%2CSAT-PERSONS.name=&CT=&CT%2CDE%2CZ4%2CKW=&BR%2CGW%2CN1%2CN2%2CNC%2CND%2CSC%2CWZ%2CZ5%2CAI%2CBC%2CKN%2CTN%2CVN%2CK0%2CB4%2CNW%2CVH=&Z3%2CCN%2CCE%2CKC%2CTC%2CVC=&timeFilterType=on&DT_from="
    ++ day.fmtDots ++ "&DT_to=" ++ day.fmtDots

/-- `dt.datetime.combine(day, dt.datetime.min.time(), tzinfo=dt.timezone.utc)`
(handelsblatt.py line 103): midnight UTC of the day, in seconds since the
epoch — a timezone-aware instant. -/
def midnightUtc (day : PyDate) : Int := 86400 * day.ordinal

/-- The two return shapes of `DeHandelsblatt._get_articles_by_date`: the
success path returns a `(urls, pub_dates)` pair, the failed-request branch
(line 51) returns a bare list. -/
inductive IndexReturn
  | pair (urls : List String) (dates : List (Option Int))
  | single (urls : List String)
deriving DecidableEq

/-- The tail of `_get_articles_by_date` (lines 96-105): deduplicate the urls
and pair each with the day's midnight-UTC timestamp
(`[...] * len(urls)`). -/
def finishIndex (day : PyDate) (urls : List String) : IndexReturn :=
  let urls2 := pySet urls
  .pair urls2 (List.replicate urls2.length (some (midnightUtc day)))

/-- Embedding of `DeHandelsblatt._get_articles_by_date` (handelsblatt.py
lines 34-105).  On a failed request the method returns a bare `[]` (line 51)
rather than a `(urls, dates)` pair, hence `IndexReturn.single`.  The name
`base_url` used on lines 79, 85 and 94 is defined nowhere in the module, so
the first evaluation of `base_url + ...` raises `NameError`: that happens as
soon as some hit's anchor href starts with `/` (line 79), or, failing that,
as soon as a pagination div holds a `dosearch` link (line 85); the paginated
fetch loop (lines 87-94) is unreachable. -/
def _get_articles_by_date (fetch : String → Option String) (parse : String → IndexSoup)
    (day : PyDate) : Except PyError IndexReturn :=
  match fetch (searchUrl day) with
  | none => .ok (.single [])
  | some html =>
    let soup := parse html
    if soup.hits.any (fun h => match h.href with
        | some s => pyStartsWith s "/"
        | none => false) then
      .error .nameError
    else
      match soup.pagination with
      | some links =>
        if (links.filter (fun h => pyIn "dosearch" h)).isEmpty then
          .ok (finishIndex day [])
        else .error .nameError
      | none => .ok (finishIndex day [])

end DeHandelsblatt

/-- The url list carried by a Handelsblatt indexing outcome (empty when an
exception escapes). -/
def hbUrls : Except PyError DeHandelsblatt.IndexReturn → List String
  | .ok (.pair us _) => us
  | .ok (.single us) => us
  | .error _ => []

/-- The url list carried by a Welt indexing outcome. -/
def weltUrls : Except PyError (List String × List (Option Int)) → List String
  | .ok r => r.1
  | .error _ => []

/-- The url list carried by a Zeit indexing outcome. -/
def zeitUrls : Except PyError (List String) → List String
  | .ok us => us
  | .error _ => []

/-- A kept row's url never lies in the `seen` accumulator. -/
theorem dropDupRows_fst_not_mem (l : List (String × Option Int)) :
    ∀ (seen : List String) (x : String),
      x ∈ (DeWelt.dropDupRows seen l).map Prod.fst → x ∉ seen := by
  induction l with
  | nil => intro seen x hx; simp [DeWelt.dropDupRows] at hx
  | cons r rest ih =>
    intro seen x hx
    simp only [DeWelt.dropDupRows] at hx
    by_cases hmem : r.1 ∈ seen
    · rw [if_pos hmem] at hx
      exact ih seen x hx
    · rw [if_neg hmem] at hx
      simp only [List.map_cons, List.mem_cons] at hx
      rcases hx with rfl | hx
      · exact hmem
      · intro hxseen
        exact ih (r.1 :: seen) x hx (List.mem_cons_of_mem _ hxseen)

/-- The urls kept by `dropDupRows` are pairwise distinct. -/
theorem dropDupRows_fst_nodup (l : List (String × Option Int)) :
    ∀ seen : List String, ((DeWelt.dropDupRows seen l).map Prod.fst).Nodup := by
  induction l with
  | nil => intro seen; simp [DeWelt.dropDupRows]
  | cons r rest ih =>
    intro seen
    simp only [DeWelt.dropDupRows]
    by_cases hmem : r.1 ∈ seen
    · rw [if_pos hmem]; exact ih seen
    · rw [if_neg hmem]
      simp only [List.map_cons, List.nodup_cons]
      exact ⟨fun hx => dropDupRows_fst_not_mem rest (r.1 :: seen) r.1 hx
          (List.mem_cons_self _ _), ih _⟩

/-- Every url kept by `dropDupRows` comes from the input rows. -/
theorem dropDupRows_fst_subset (l : List (String × Option Int)) :
    ∀ (seen : List String) (x : String),
      x ∈ (DeWelt.dropDupRows seen l).map Prod.fst → x ∈ l.map Prod.fst := by
  induction l with
  | nil => intro seen x hx; simp [DeWelt.dropDupRows] at hx
  | cons r rest ih =>
    intro seen x hx
    simp only [DeWelt.dropDupRows] at hx
    by_cases hmem : r.1 ∈ seen
    · rw [if_pos hmem] at hx
      exact List.mem_cons_of_mem _ (ih seen x hx)
    · rw [if_neg hmem] at hx
      simp only [List.map_cons, List.mem_cons] at hx ⊢
      rcases hx with rfl | hx
      · exact Or.inl rfl
      · exact Or.inr (ih _ x hx)

/-- A prefix of `s` is also a prefix of `s ++ t`. -/
theorem pyStartsWith_append (s t p : String) (h : pyStartsWith s p = true) :
    pyStartsWith (s ++ t) p = true := by
  unfold pyStartsWith at h ⊢
  rw [List.isPrefixOf_iff_prefix] at h ⊢
  rw [String.data_append s t]
  exact h.trans (List.prefix_append _ _)

/-- C2: the claim asserts every indexing call returns a pair of two
equal-length sequences, "including on the branch where the index page request
yields no HTML".  On that branch Handelsblatt returns the bare single list
`[]` (handelsblatt.py line 51) — a caller unpacking `urls, dates` fails — and
Welt raises `TypeError` from `BeautifulSoup(None, ...)` (its guard is
commented out, welt.py lines 53-54). -/
theorem c2_no_html_shape_cex :
    DeHandelsblatt._get_articles_by_date (fun _ => none) (fun _ => ⟨[], none⟩)
        ⟨0, "d", "d"⟩ = .ok (.single [])
      ∧ DeWelt._get_articles_by_date (fun _ => none) (fun _ => ⟨[], []⟩)
          (fun _ _ => none) (fun _ => none) ⟨0, "d", "d"⟩ = .error .typeError :=
  ⟨rfl, rfl⟩

/-- C2 (amended): Welt and Handelsblatt return a pair of two equal-length
lists when the index page yields HTML, but on the no-HTML branch Handelsblatt
returns a single empty list and Welt raises `TypeError`; Zeit's edition
indexer returns a bare url list (no dates) on every branch, `[]` when the
request fails. -/
theorem c2_index_return_shapes
    (fetch : String → Option String)
    (hparse : String → DeHandelsblatt.IndexSoup)
    (wparse : String → DeWelt.IndexSoup)
    (tf : String → String → Option Int) (cu : String → Option Int)
    (zparse : String → List (Option String)) (day : PyDate) (year edition : Nat) :
    (∀ us ds, DeHandelsblatt._get_articles_by_date fetch hparse day = .ok (.pair us ds) →
        us.length = ds.length)
    ∧ (fetch (DeHandelsblatt.searchUrl day) = none →
        DeHandelsblatt._get_articles_by_date fetch hparse day = .ok (.single []))
    ∧ (∀ us ds, DeWelt._get_articles_by_date fetch wparse tf cu day = .ok (us, ds) →
        us.length = ds.length)
    ∧ (fetch (DeWelt.indexUrl day) = none →
        DeWelt._get_articles_by_date fetch wparse tf cu day = .error .typeError)
    ∧ (fetch (DeZeit.editionUrl year edition) = none →
        DeZeit._get_articles_by_editions fetch zparse year edition = .ok []) := by
  refine ⟨?_, ?_, ?_, ?_, ?_⟩
  · intro us ds h
    unfold DeHandelsblatt._get_articles_by_date at h
    split at h
    · simp at h
    · dsimp only at h
      split at h
      · simp at h
      · split at h
        · split at h
          · simp only [DeHandelsblatt.finishIndex, Except.ok.injEq,
              DeHandelsblatt.IndexReturn.pair.injEq] at h
            rw [← h.1, ← h.2, List.length_replicate]
          · simp at h
        · simp only [DeHandelsblatt.finishIndex, Except.ok.injEq,
            DeHandelsblatt.IndexReturn.pair.injEq] at h
          rw [← h.1, ← h.2, List.length_replicate]
  · intro hnone
    unfold DeHandelsblatt._get_articles_by_date
    rw [hnone]
  · intro us ds h
    unfold DeWelt._get_articles_by_date at h
    split at h
    · simp at h
    · dsimp only at h
      split at h
      · simp only [Except.ok.injEq, Prod.mk.injEq] at h
        rw [← h.1, ← h.2]
        rfl
      · split at h
        · simp only [Except.ok.injEq, Prod.mk.injEq] at h
          rw [← h.1, ← h.2]
          simp [List.length_map]
        · simp at h
  · intro hnone
    unfold DeWelt._get_articles_by_date
    rw [hnone]
  · intro hnone
    unfold DeZeit._get_articles_by_editions
    rw [hnone]

/-- Witness for `c2_index_return_shapes`: each hypothesis discharged at a
concrete input (successful fetches with empty pages, and failing fetches). -/
theorem c2_index_return_shapes_witness :
    (DeHandelsblatt._get_articles_by_date (fun _ => some "h") (fun _ => ⟨[], none⟩)
        ⟨0, "d", "d"⟩ = .ok (.pair [] [])
      ∧ ([] : List String).length = ([] : List (Option Int)).length)
    ∧ ((fun _ => (none : Option String)) (DeHandelsblatt.searchUrl ⟨0, "d", "d"⟩) = none
      ∧ DeHandelsblatt._get_articles_by_date (fun _ => none) (fun _ => ⟨[], none⟩)
          ⟨0, "d", "d"⟩ = .ok (.single []))
    ∧ (DeWelt._get_articles_by_date (fun _ => some "h") (fun _ => ⟨[], []⟩)
        (fun _ _ => none) (fun _ => none) ⟨0, "d", "d"⟩ = .ok ([], [])
      ∧ ([] : List String).length = ([] : List (Option Int)).length)
    ∧ ((fun _ => (none : Option String)) (DeWelt.indexUrl ⟨0, "d", "d"⟩) = none
      ∧ DeWelt._get_articles_by_date (fun _ => none) (fun _ => ⟨[], []⟩)
          (fun _ _ => none) (fun _ => none) ⟨0, "d", "d"⟩ = .error .typeError)
    ∧ ((fun _ => (none : Option String)) (DeZeit.editionUrl 2023 1) = none
      ∧ DeZeit._get_articles_by_editions (fun _ => none) (fun _ => []) 2023 1 = .ok []) :=
  ⟨⟨rfl, (c2_index_return_shapes (fun _ => some "h") (fun _ => ⟨[], none⟩) (fun _ => ⟨[], []⟩)
      (fun _ _ => none) (fun _ => none) (fun _ => []) ⟨0, "d", "d"⟩ 2023 1).1 [] [] rfl⟩,
    ⟨rfl, (c2_index_return_shapes (fun _ => none) (fun _ => ⟨[], none⟩) (fun _ => ⟨[], []⟩)
      (fun _ _ => none) (fun _ => none) (fun _ => []) ⟨0, "d", "d"⟩ 2023 1).2.1 rfl⟩,
    ⟨rfl, (c2_index_return_shapes (fun _ => some "h") (fun _ => ⟨[], none⟩) (fun _ => ⟨[], []⟩)
      (fun _ _ => none) (fun _ => none) (fun _ => []) ⟨0, "d", "d"⟩ 2023 1).2.2.1 [] [] rfl⟩,
    ⟨rfl, (c2_index_return_shapes (fun _ => none) (fun _ => ⟨[], none⟩) (fun _ => ⟨[], []⟩)
      (fun _ _ => none) (fun _ => none) (fun _ => []) ⟨0, "d", "d"⟩ 2023 1).2.2.2.1 rfl⟩,
    ⟨rfl, (c2_index_return_shapes (fun _ => none) (fun _ => ⟨[], none⟩) (fun _ => ⟨[], []⟩)
      (fun _ _ => none) (fun _ => none) (fun _ => []) ⟨0, "d", "d"⟩ 2023 1).2.2.2.2 rfl⟩⟩

/-- C5: within one indexing pass the returned url list is duplicate-free:
Handelsblatt and Zeit pass their urls through `list(set(urls))`, Welt through
`df.drop_duplicates(subset="url")`, on every path that returns a list. -/
theorem c5_index_urls_nodup
    (fetch : String → Option String)
    (hparse : String → DeHandelsblatt.IndexSoup)
    (wparse : String → DeWelt.IndexSoup)
    (tf : String → String → Option Int) (cu : String → Option Int)
    (zparse : String → List (Option String)) (day : PyDate) (year edition : Nat) :
    (hbUrls (DeHandelsblatt._get_articles_by_date fetch hparse day)).Nodup
    ∧ (weltUrls (DeWelt._get_articles_by_date fetch wparse tf cu day)).Nodup
    ∧ (zeitUrls (DeZeit._get_articles_by_editions fetch zparse year edition)).Nodup := by
  refine ⟨?_, ?_, ?_⟩
  · unfold DeHandelsblatt._get_articles_by_date
    split
    · simp [hbUrls]
    · dsimp only
      split
      · simp [hbUrls]
      · split
        · split
          · simp [hbUrls, DeHandelsblatt.finishIndex, pySet, List.nodup_dedup]
          · simp [hbUrls]
        · simp [hbUrls, DeHandelsblatt.finishIndex, pySet, List.nodup_dedup]
  · unfold DeWelt._get_articles_by_date
    split
    · simp [weltUrls]
    · dsimp only
      split
      · simp [weltUrls]
      · split
        · simpa [weltUrls] using dropDupRows_fst_nodup _ []
        · simp [weltUrls]
  · unfold DeZeit._get_articles_by_editions
    split
    · simp [zeitUrls]
    · split
      · simp [zeitUrls]
      · simp [zeitUrls, pySet, List.nodup_dedup]

/-- C6: the claim asserts every returned url is a normalized absolute URL and
that non-absolute leftovers are filtered out.  Welt only prefixes hrefs that
do not start with the four characters `http` and passes every other href
through unvalidated: on a page whose headline anchor href is `httpx`, the
returned list contains `httpx`, which carries no scheme. -/
theorem c6_nonabsolute_url_cex :
    "httpx" ∈ weltUrls (DeWelt._get_articles_by_date (fun _ => some "h")
        (fun _ => ⟨[⟨none, ""⟩], ["httpx"]⟩) (fun _ _ => none) (fun _ => none)
        ⟨0, "d", "d"⟩)
      ∧ absoluteUrl "httpx" = false := by decide

/-- C6 (amended): Zeit filters its urls to those starting with
`https://www.zeit.de/`, so they are absolute; Welt guarantees only that every
returned url starts with `http` — relative hrefs get the site prefix, but an
href already starting with `http` is passed through unvalidated;
Handelsblatt's prefixing code references the undefined `base_url` and raises
before any url is collected, so its successful passes return the empty url
list. -/
theorem c6_url_prefix_invariants
    (fetch : String → Option String)
    (hparse : String → DeHandelsblatt.IndexSoup)
    (wparse : String → DeWelt.IndexSoup)
    (tf : String → String → Option Int) (cu : String → Option Int)
    (zparse : String → List (Option String)) (day : PyDate) (year edition : Nat) :
    (∀ u ∈ zeitUrls (DeZeit._get_articles_by_editions fetch zparse year edition),
        pyStartsWith u "https://www.zeit.de/" = true)
    ∧ (∀ u ∈ weltUrls (DeWelt._get_articles_by_date fetch wparse tf cu day),
        pyStartsWith u "http" = true)
    ∧ hbUrls (DeHandelsblatt._get_articles_by_date fetch hparse day) = [] := by
  refine ⟨?_, ?_, ?_⟩
  · intro u hu
    unfold DeZeit._get_articles_by_editions at hu
    revert hu
    split
    · simp [zeitUrls]
    · split
      · simp [zeitUrls]
      · intro hu
        simp only [zeitUrls, pySet] at hu
        rw [List.mem_dedup] at hu
        exact (List.mem_filter.mp hu).2
  · intro u hu
    unfold DeWelt._get_articles_by_date at hu
    revert hu
    split
    · simp [weltUrls]
    · dsimp only
      split
      · simp [weltUrls]
      · split
        · rename_i hlen
          intro hu
          simp only [weltUrls] at hu
          have hu2 := dropDupRows_fst_subset _ [] u hu
          rw [List.map_fst_zip _ _ (le_of_eq hlen)] at hu2
          rw [List.mem_map] at hu2
          obtain ⟨h, _, rfl⟩ := hu2
          by_cases hs : pyStartsWith h "http"
          · simp [hs]
          · simp only [hs, Bool.not_false, if_pos]
            exact pyStartsWith_append "https://www.welt.de" h "http" (by decide)
        · simp [weltUrls]
  · unfold DeHandelsblatt._get_articles_by_date
    split
    · simp [hbUrls]
    · dsimp only
      split
      · simp [hbUrls]
      · split
        · split
          · simp [hbUrls, DeHandelsblatt.finishIndex, pySet]
          · simp [hbUrls]
        · simp [hbUrls, DeHandelsblatt.finishIndex, pySet]

/-- Witness for `c6_url_prefix_invariants`: membership hypotheses discharged
on concrete index pages with one article each. -/
theorem c6_url_prefix_invariants_witness :
    ("https://www.zeit.de/a" ∈ zeitUrls (DeZeit._get_articles_by_editions
        (fun _ => some "h") (fun _ => [some "https://www.zeit.de/a"]) 2023 1)
      ∧ pyStartsWith "https://www.zeit.de/a" "https://www.zeit.de/" = true)
    ∧ ("https://www.welt.de/a" ∈ weltUrls (DeWelt._get_articles_by_date
        (fun _ => some "h") (fun _ => ⟨[⟨none, ""⟩], ["/a"]⟩)
        (fun _ _ => none) (fun _ => none) ⟨0, "d", "d"⟩)
      ∧ pyStartsWith "https://www.welt.de/a" "http" = true) :=
  ⟨⟨by decide, (c6_url_prefix_invariants (fun _ => some "h") (fun _ => ⟨[], none⟩)
      (fun _ => ⟨[⟨none, ""⟩], ["/a"]⟩) (fun _ _ => none) (fun _ => none)
      (fun _ => [some "https://www.zeit.de/a"]) ⟨0, "d", "d"⟩ 2023 1).1
      "https://www.zeit.de/a" (by decide)⟩,
    ⟨by decide, (c6_url_prefix_invariants (fun _ => some "h") (fun _ => ⟨[], none⟩)
      (fun _ => ⟨[⟨none, ""⟩], ["/a"]⟩) (fun _ _ => none) (fun _ => none)
      (fun _ => [some "https://www.zeit.de/a"]) ⟨0, "d", "d"⟩ 2023 1).2.1
      "https://www.welt.de/a" (by decide)⟩⟩

/-- C7: the claim asserts a publication date is never missing.  On a Welt
archive page whose single teaser has no date span and empty text, the parsed
date is `pd.NaT` (line 109) and the returned sequence contains that missing
value. -/
theorem c7_missing_date_cex :
    DeWelt._get_articles_by_date (fun _ => some "h")
        (fun _ => ⟨[⟨none, ""⟩], ["/a"]⟩) (fun _ _ => none) (fun _ => none)
        ⟨0, "d", "d"⟩
      = .ok (["https://www.welt.de/a"], [none]) := rfl

/-- C7 (amended): every publication date Handelsblatt returns is the
timezone-aware midnight-UTC timestamp of the indexed day; Welt's dates are
UTC values or the missing value `NaT` — and `NaT` actually occurs, so dates
can be missing, though never timezone-naive (every parse is `utc=True`). -/
theorem c7_pub_dates_midnight_or_nat
    (fetch : String → Option String) (hparse : String → DeHandelsblatt.IndexSoup)
    (day : PyDate) :
    (∀ us ds, DeHandelsblatt._get_articles_by_date fetch hparse day = .ok (.pair us ds) →
        ∀ d ∈ ds, d = some (DeHandelsblatt.midnightUtc day))
    ∧ (∃ (wfetch : String → Option String) (wparse : String → DeWelt.IndexSoup)
          (tf : String → String → Option Int) (cu : String → Option Int) (wday : PyDate)
          (us : List String) (ds : List (Option Int)),
        DeWelt._get_articles_by_date wfetch wparse tf cu wday = .ok (us, ds)
          ∧ none ∈ ds) := by
  constructor
  · intro us ds h d hd
    unfold DeHandelsblatt._get_articles_by_date at h
    split at h
    · simp at h
    · dsimp only at h
      split at h
      · simp at h
      · split at h
        · split at h
          · simp only [DeHandelsblatt.finishIndex, Except.ok.injEq,
              DeHandelsblatt.IndexReturn.pair.injEq] at h
            rw [← h.2] at hd
            exact List.eq_of_mem_replicate hd
          · simp at h
        · simp only [DeHandelsblatt.finishIndex, Except.ok.injEq,
            DeHandelsblatt.IndexReturn.pair.injEq] at h
          rw [← h.2] at hd
          exact List.eq_of_mem_replicate hd
  · exact ⟨fun _ => some "h", fun _ => ⟨[⟨none, ""⟩], ["/b"]⟩, fun _ _ => none,
      fun _ => none, ⟨0, "d", "d"⟩, ["https://www.welt.de/b"], [none], rfl, by simp⟩

/-- Witness for `c7_pub_dates_midnight_or_nat` on an empty but successful
Handelsblatt pass. -/
theorem c7_pub_dates_midnight_or_nat_witness :
    DeHandelsblatt._get_articles_by_date (fun _ => some "h") (fun _ => ⟨[], none⟩)
        ⟨0, "d", "d"⟩ = .ok (.pair [] [])
      ∧ ∀ d ∈ ([] : List (Option Int)), d = some (DeHandelsblatt.midnightUtc ⟨0, "d", "d"⟩) :=
  ⟨rfl, (c7_pub_dates_midnight_or_nat (fun _ => some "h") (fun _ => ⟨[], none⟩)
      ⟨0, "d", "d"⟩).1 [] [] rfl⟩

/-- Selenium exceptions that can escape to the caller. -/
inductive SelErr
  | timeout
  | noSuchElement
deriving DecidableEq

/-- A selenium-driven call either returns a value to the caller or lets an
exception escape. -/
inductive LoginResult
  | ok (b : Bool)
  | raises (e : SelErr)
deriving DecidableEq

namespace DeWelt

/-- Per-step outcomes of one `DeWelt._selenium_login` run (welt.py lines
163-203): `true` means the awaited element turns up in time / the lookup
succeeds, `false` means the step raises its characteristic exception
(`TimeoutException` for a `WebDriverWait.until`, `NoSuchElementException`
for a `find_element`). -/
structure LoginOutcome where
  /-- wait for the `username` field on the login page (line 175) -/
  waitUsername : Bool
  /-- `find_element` of the username field (line 177) -/
  findUsername : Bool
  /-- `find_element` of the password field (line 178) -/
  findPassword : Bool
  /-- `find_element` of the submit button (line 179) -/
  findSubmit : Bool
  /-- wait for the SP Consent iframe on the main page (line 183) -/
  waitPrivacyFrame : Bool
  /-- wait for the accept-cookies button (line 187) -/
  waitAcceptBtn : Bool
  /-- `find_element` of the accept-cookies button (line 189) -/
  findAcceptBtn : Bool
  /-- wait for the home component on the account page (line 194, in the try) -/
  waitHome : Bool
  /-- `find_element` of the home component (line 196, in the try) -/
  findHome : Bool
  /-- wait for the greeting div inside the home component (line 197, in the try) -/
  waitGreeting : Bool
deriving DecidableEq


/-- Embedding of `DeWelt._selenium_login` (welt.py lines 163-203).  Only the
final account-page check sits in a `try`, and its handler catches
`NoSuchElementException` alone — the two `WebDriverWait` timeouts inside the
try (lines 194 and 197) escape, as does every failure before the try. -/
def _selenium_login (o : LoginOutcome) : LoginResult :=
  if !o.waitUsername then .raises .timeout
  else if !o.findUsername then .raises .noSuchElement
  else if !o.findPassword then .raises .noSuchElement
  else if !o.findSubmit then .raises .noSuchElement
  else if !o.waitPrivacyFrame then .raises .timeout
  else if !o.waitAcceptBtn then .raises .timeout
  else if !o.findAcceptBtn then .raises .noSuchElement
  else if !o.waitHome then .raises .timeout
  else if !o.findHome then .ok false
  else if !o.waitGreeting then .raises .timeout
  else .ok true

/-- All the Welt login steps before the final logged-in check succeed. -/
def loginPre (o : LoginOutcome) : Bool :=
  o.waitUsername && o.findUsername && o.findPassword && o.findSubmit &&
    o.waitPrivacyFrame && o.waitAcceptBtn && o.findAcceptBtn

end DeWelt

namespace DeZeit

/-- Per-step outcomes of one `DeZeit._selenium_login` run (zeit.py lines
115-166), with the same `true`/`false` reading as for Welt. -/
structure LoginOutcome where
  /-- `find_element` of the email input (line 127) -/
  findEmail : Bool
  /-- `find_element` of the password input (line 128) -/
  findPassword : Bool
  /-- `find_element` of the submit input (line 129) -/
  findSubmit : Bool
  /-- wait for the `kc-login` confirm button to be clickable (line 138) -/
  waitKcLogin : Bool
  /-- wait for the Consent Message iframe (line 147) -/
  waitPrivacyFrame : Bool
  /-- wait for the cookie-accept button (line 152) -/
  waitCookieBtn : Bool
  /-- wait for the dashboard marker (line 160, in the try) -/
  waitDashboard : Bool
deriving DecidableEq


/-- Embedding of `DeZeit._selenium_login` (zeit.py lines 115-166).  Only the
final dashboard wait sits in a `try` whose handler catches
`TimeoutException`; every earlier missing element or timeout escapes. -/
def _selenium_login (o : LoginOutcome) : LoginResult :=
  if !o.findEmail then .raises .noSuchElement
  else if !o.findPassword then .raises .noSuchElement
  else if !o.findSubmit then .raises .noSuchElement
  else if !o.waitKcLogin then .raises .timeout
  else if !o.waitPrivacyFrame then .raises .timeout
  else if !o.waitCookieBtn then .raises .timeout
  else if o.waitDashboard then .ok true
  else .ok false

/-- All the Zeit login steps before the final dashboard check succeed. -/
def loginPre (o : LoginOutcome) : Bool :=
  o.findEmail && o.findPassword && o.findSubmit && o.waitKcLogin &&
    o.waitPrivacyFrame && o.waitCookieBtn

end DeZeit

namespace DeHandelsblatt

/-- Per-step outcomes of one `DeHandelsblatt._selenium_login` run
(handelsblatt.py lines 124-188). -/
structure LoginOutcome where
  /-- wait for the cookie iframe on the main page (line 136) -/
  waitPrivacyFrame1 : Bool
  /-- wait for the ZUSTIMMEN button (line 139) -/
  waitCookieBtn1 : Bool
  /-- wait for the Login link (line 144) -/
  waitLoginBtn : Bool
  /-- wait for the cookie iframe on the login page (line 151, in a try) -/
  waitPrivacyFrame2 : Bool
  /-- wait for the ZUSTIMMEN button on the login page (line 154, in a try) -/
  waitCookieBtn2 : Bool
  /-- `find_element` of the email input (line 162) -/
  findEmail : Bool
  /-- `find_element` of the password input (line 164) -/
  findPassword : Bool
  /-- `find_element` of the submit button (line 166) -/
  findSubmit : Bool
  /-- wait for the cookie iframe after login (line 171, in a try) -/
  waitPrivacyFrame3 : Bool
  /-- wait for the ZUSTIMMEN button after login (line 174, in a try) -/
  waitCookieBtn3 : Bool
  /-- wait for the span holding the username (line 182, in the final try) -/
  waitUserSpan : Bool
deriving DecidableEq


/-- Embedding of `DeHandelsblatt._selenium_login` (handelsblatt.py lines
124-188).  The two cookie-retry blocks (lines 149-158 and 168-178) swallow
their `TimeoutException`s with `pass`, so their outcomes never change the
result; the final username-span wait sits in a `try` that turns its timeout
into `False`.  Everything else escapes on failure. -/
def _selenium_login (o : LoginOutcome) : LoginResult :=
  if !o.waitPrivacyFrame1 then .raises .timeout
  else if !o.waitCookieBtn1 then .raises .timeout
  else if !o.waitLoginBtn then .raises .timeout
  else if !o.findEmail then .raises .noSuchElement
  else if !o.findPassword then .raises .noSuchElement
  else if !o.findSubmit then .raises .noSuchElement
  else if o.waitUserSpan then .ok true
  else .ok false

/-- All the Handelsblatt login steps that can escape before the final check
succeed. -/
def loginPre (o : LoginOutcome) : Bool :=
  o.waitPrivacyFrame1 && o.waitCookieBtn1 && o.waitLoginBtn &&
    o.findEmail && o.findPassword && o.findSubmit

end DeHandelsblatt

/-- C4: the claim asserts the login flows return a boolean for every sequence
of element outcomes and never raise.  When the very first wait of the Welt
flow (the username field, welt.py line 175) times out, `_selenium_login`
lets the `TimeoutException` escape to its caller instead of returning a
boolean. -/
theorem c4_login_raises_cex :
    DeWelt._selenium_login ⟨false, true, true, true, true, true, true, true, true, true⟩
      = .raises .timeout := rfl

/-- C4 (amended): a login run returns a boolean only when every step before
its final logged-in check succeeds — in that case Handelsblatt and Zeit
return true exactly when the final marker wait succeeds and false otherwise,
while Welt returns true when the home wait, home lookup and greeting wait all
succeed and false only when the home lookup raises `NoSuchElementException`;
any other element timeout or absence (including a timeout inside Welt's
final check) escapes as an exception. -/
theorem c4_login_outcome_characterization :
    (∀ o : DeWelt.LoginOutcome,
      (DeWelt._selenium_login o = .ok true ↔
        (DeWelt.loginPre o && o.waitHome && o.findHome && o.waitGreeting) = true)
      ∧ (DeWelt._selenium_login o = .ok false ↔
        (DeWelt.loginPre o && o.waitHome && !o.findHome) = true))
    ∧ (∀ o : DeZeit.LoginOutcome,
      (DeZeit._selenium_login o = .ok true ↔
        (DeZeit.loginPre o && o.waitDashboard) = true)
      ∧ (DeZeit._selenium_login o = .ok false ↔
        (DeZeit.loginPre o && !o.waitDashboard) = true))
    ∧ (∀ o : DeHandelsblatt.LoginOutcome,
      (DeHandelsblatt._selenium_login o = .ok true ↔
        (DeHandelsblatt.loginPre o && o.waitUserSpan) = true)
      ∧ (DeHandelsblatt._selenium_login o = .ok false ↔
        (DeHandelsblatt.loginPre o && !o.waitUserSpan) = true)) := by
  refine ⟨?_, ?_, ?_⟩
  · intro o
    obtain ⟨a, b, c, d, e, f, g, h, i, j⟩ := o
    cases a <;> cases b <;> cases c <;> cases d <;> cases e <;> cases f <;> cases g <;>
      cases h <;> cases i <;> cases j <;> exact ⟨by decide, by decide⟩
  · intro o
    obtain ⟨a, b, c, d, e, f, g⟩ := o
    cases a <;> cases b <;> cases c <;> cases d <;> cases e <;> cases f <;> cases g <;>
      exact ⟨by decide, by decide⟩
  · intro o
    obtain ⟨a, b, c, d, e, f, g, h, i, j, k⟩ := o
    cases a <;> cases b <;> cases c <;> cases d <;> cases e <;> cases f <;> cases g <;>
      cases h <;> cases i <;> cases j <;> cases k <;> exact ⟨by decide, by decide⟩

namespace DeZeit

/-- The browser state `_selenium_get_html` drives: `get u` is the page source
the driver shows after navigating to `u` (or the selenium exception the
navigation raises), and `hasLinkTo src href` is whether
`find_element(By.XPATH, ...)` finds an anchor with exactly that `href` on the
current page source `src`. -/
structure Nav where
  get : String → Except SelErr String
  hasLinkTo : String → String → Bool

/-- Embedding of `DeZeit._selenium_get_html` (zeit.py lines 168-181): navigate
to `url`; when the page holds a link to `url + "/komplettansicht"`, navigate
there (the `except NoSuchElementException: pass` only covers the link being
absent); return the current page source.  No branch returns a null value, and
a navigation timeout is caught nowhere, so it escapes to the caller. -/
def _selenium_get_html (nav : Nav) (url : String) : Except SelErr String :=
  match nav.get url with
  | .error e => .error e
  | .ok src =>
    if nav.hasLinkTo src (url ++ "/komplettansicht") then
      nav.get (url ++ "/komplettansicht")
    else .ok src

end DeZeit

/-- C8: the claim asserts the premium fetch "returns None (with a log entry)
on navigation timeout".  When the first navigation times out,
`_selenium_get_html` has no handler and no `None` return: the
`TimeoutException` escapes to the caller instead. -/
theorem c8_nav_timeout_cex :
    DeZeit._selenium_get_html ⟨fun _ => .error .timeout, fun _ _ => false⟩ "u"
      = .error .timeout := rfl

/-- C8 (amended): the premium fetch navigates to the url, then to the
`/komplettansicht` full view exactly when the page links to it, and returns
the rendered page source of wherever it ends up; a navigation timeout is not
caught and propagates as an exception (there is no `None` return). -/
theorem c8_selenium_get_html_behavior (nav : DeZeit.Nav) (url src : String) :
    (nav.get url = .ok src → nav.hasLinkTo src (url ++ "/komplettansicht") = true →
      DeZeit._selenium_get_html nav url = nav.get (url ++ "/komplettansicht"))
    ∧ (nav.get url = .ok src → nav.hasLinkTo src (url ++ "/komplettansicht") = false →
      DeZeit._selenium_get_html nav url = .ok src)
    ∧ (∀ e, nav.get url = .error e →
      DeZeit._selenium_get_html nav url = .error e) := by
  refine ⟨?_, ?_, ?_⟩
  · intro hok hlink
    simp only [DeZeit._selenium_get_html, hok, hlink, if_true]
  · intro hok hlink
    simp only [DeZeit._selenium_get_html, hok, hlink, Bool.false_eq_true, if_false]
  · intro e herr
    simp only [DeZeit._selenium_get_html, herr]

/-- Witness for `c8_selenium_get_html_behavior`, applying it on three concrete
drivers: one whose page links to the full view, one whose page does not, and
one whose navigation times out. -/
theorem c8_selenium_get_html_behavior_witness :
    ((⟨fun u => .ok u, fun _ _ => true⟩ : DeZeit.Nav).get "u" = .ok "u"
      ∧ DeZeit._selenium_get_html ⟨fun u => .ok u, fun _ _ => true⟩ "u"
        = (⟨fun u => .ok u, fun _ _ => true⟩ : DeZeit.Nav).get ("u" ++ "/komplettansicht"))
    ∧ DeZeit._selenium_get_html ⟨fun u => .ok u, fun _ _ => false⟩ "u" = .ok "u"
    ∧ DeZeit._selenium_get_html ⟨fun _ => .error .timeout, fun _ _ => false⟩ "u"
      = .error .timeout :=
  ⟨⟨rfl, (c8_selenium_get_html_behavior ⟨fun u => .ok u, fun _ _ => true⟩ "u" "u").1
      rfl rfl⟩,
    (c8_selenium_get_html_behavior ⟨fun u => .ok u, fun _ _ => false⟩ "u" "u").2.1 rfl rfl,
    (c8_selenium_get_html_behavior ⟨fun _ => .error .timeout, fun _ _ => false⟩ "u" "u").2.2
      .timeout rfl⟩

namespace DeHandelsblatt

/-- Embedding of `DeHandelsblatt._soup_get_html` (handelsblatt.py lines
107-122): the body is the single statement `return None, False`.  `fetch`
(`self._request`) is in scope but never called; the second component records
the urls passed to it — none.  Per the source comment, this constant return
marks every article as premium content, to be scraped through the
authenticated selenium session (`self.scrape_premium_articles`) instead. -/
def _soup_get_html (_fetch : String → Option String) (_url : String) :
    (Option String × Bool) × List String :=
  ((none, false), [])

end DeHandelsblatt

/-- C9: `DeHandelsblatt._soup_get_html` is the constant function `(None, False)`:
its value carries an empty request trace and does not depend on the network
oracle or the url, so no HTTP request is issued and every article is left to
the authenticated premium path. -/
theorem c9_hb_classify_constant (fetch fetch' : String → Option String)
    (url url' : String) :
    DeHandelsblatt._soup_get_html fetch url = ((none, false), [])
    ∧ DeHandelsblatt._soup_get_html fetch url
        = DeHandelsblatt._soup_get_html fetch' url' :=
  ⟨rfl, rfl⟩

/-- C10: under the precondition that a fetched `/komplettansicht` page never
links to a `/komplettansicht` variant of its own url, `DeZeit._soup_get_html`
finishes within two activations (at most one recursive call): fuel 2 is never
exhausted. -/
theorem c10_komplettansicht_recursion_depth
    (fetch : String → Option String) (parse : String → DeZeit.ArticleSoup)
    (hK : ∀ u html, fetch (u ++ "/komplettansicht") = some html →
      (parse html).hasLink ((u ++ "/komplettansicht") ++ "/komplettansicht") = false)
    (url : String) :
    (DeZeit._soup_get_html fetch parse 2 url).isSome = true := by
  show (DeZeit._soup_get_html fetch parse (Nat.succ (Nat.succ 0)) url).isSome = true
  cases hf : fetch url with
  | none => simp [DeZeit._soup_get_html, hf]
  | some html =>
    by_cases hl : (parse html).hasLink (url ++ "/komplettansicht") = true
    · simp only [DeZeit._soup_get_html, hf, hl, if_true]
      cases hf2 : fetch (url ++ "/komplettansicht") with
      | none => simp [DeZeit._soup_get_html, hf2]
      | some html2 =>
        simp [DeZeit._soup_get_html, hf2, hK url html2 hf2]
    · simp [DeZeit._soup_get_html, hf, hl]

/-- Witness for `c10_komplettansicht_recursion_depth` on a driver whose pages
hold no links at all. -/
theorem c10_komplettansicht_recursion_depth_witness :
    (DeZeit._soup_get_html (fun _ => some "p") (fun _ => ⟨[], false⟩) 2 "u").isSome
      = true :=
  c10_komplettansicht_recursion_depth (fun _ => some "p") (fun _ => ⟨[], false⟩)
    (fun _ _ _ => rfl) "u"
